import Mathlib

/-!
# Verification of the message-sending-service core

Shallow embedding of the Go sources of `message-sending-service`:

* `internal/domain/entities/message.go` — the `Message` entity, its
  `Validate`, `MarkAsSent`, `MarkAsFailed`, `IsPending`, `IsSent` operations;
* `internal/infrastructure/database/message_repository_impl.go` —
  `GetPendingMessages` (SQL: `WHERE status = pending ORDER BY created_at
  ASC LIMIT $1`), embedded as filter + stable sort + take over a list model
  of the message table;
* `internal/application/usecases/message_usecase_impl.go` — `SendMessage`
  and `ProcessPendingMessages`, with the external collaborators (delivery
  API client, repository update, status cache) supplied as explicit
  per-call outcomes;
* `internal/application/usecases/scheduler_usecase_impl.go` — the scheduler
  state machine (`StartScheduler`, `StopScheduler`, `GetSchedulerStatus`,
  and the cron tick handler `processMessages`), with time as `Nat` and the
  batch-processing result supplied as an explicit outcome.

Timestamps are modelled as `Nat`, message ids as `Nat`, and external-world
effects (API responses, repository / cache write results) as explicit
arguments, so every definition is executable.
-/

namespace MessageService

/-- Status of a message, from `MessageStatus` in `message.go`:
`pending`, `sent`, `failed`. -/
inductive MessageStatus where
  | pending
  | sent
  | failed
deriving DecidableEq, Repr

/-- The `Message` struct from `message.go`.  `time.Time` values are
modelled as `Nat`, the `uuid.UUID` id as `Nat`, pointer-typed optional
fields as `Option`. -/
structure Message where
  ID : Nat
  Content : String
  PhoneNumber : String
  Status : MessageStatus
  CreatedAt : Nat
  UpdatedAt : Nat
  SentAt : Option Nat
  ExternalMessageID : Option String
  ErrorMessage : Option String
deriving DecidableEq, Repr

/-- The validation errors returned by `Message.Validate`
(`ErrInvalidMessageContent`, `ErrMessageTooLong`, `ErrInvalidPhoneNumber`
in the entities package). -/
inductive ValidationError where
  | ErrInvalidMessageContent
  | ErrMessageTooLong
  | ErrInvalidPhoneNumber
deriving DecidableEq, Repr

/-- Go `func (m *Message) Validate() error` from `message.go`: empty content,
then content longer than 160, then empty phone number; `none` models the
`nil` return. -/
def Message.Validate (m : Message) : Option ValidationError :=
  if m.Content = "" then
    some ValidationError.ErrInvalidMessageContent
  else if m.Content.length > 160 then
    some ValidationError.ErrMessageTooLong
  else if m.PhoneNumber = "" then
    some ValidationError.ErrInvalidPhoneNumber
  else
    none

/-- Go `func (m *Message) MarkAsSent(externalMessageID string)` from
`message.go`; `now` stands for `time.Now()`. -/
def Message.MarkAsSent (m : Message) (externalMessageID : String) (now : Nat) : Message :=
  { m with
    Status := MessageStatus.sent
    SentAt := some now
    UpdatedAt := now
    ExternalMessageID := some externalMessageID }

/-- Go `func (m *Message) MarkAsFailed(errorMsg string)` from `message.go`. -/
def Message.MarkAsFailed (m : Message) (errorMsg : String) (now : Nat) : Message :=
  { m with
    Status := MessageStatus.failed
    UpdatedAt := now
    ErrorMessage := some errorMsg }

/-- Go `func (m *Message) IsPending() bool` from `message.go`. -/
def Message.IsPending (m : Message) : Bool :=
  m.Status = MessageStatus.pending

/-- Go `func (m *Message) IsSent() bool` from `message.go`. -/
def Message.IsSent (m : Message) : Bool :=
  m.Status = MessageStatus.sent

/-- The `SendMessageResponse` struct of the delivery client
(`infrastructure/external/message_api.go`): external message id, status
string, and error text. -/
structure SendMessageResponse where
  MessageID : String
  Status : String
  Error : String
deriving DecidableEq, Repr

/-- The external-world outcome of one send attempt in
`messageUseCaseImpl.SendMessage`: the delivery API call result
(`Except.error` models a transport-level error from
`apiClient.SendMessage`), the result of the `messageRepo.Update` call
(`some e` = the update failed with error `e`), and the result of the
`cacheRepo.SetMessageSent` call (attempted only after a successful send
when a cache is configured; its result is only ever logged). -/
structure SendEnv where
  api : Except String SendMessageResponse
  updateErr : Option String
  cacheErr : Option String
deriving Repr

/-- Go `func (uc *messageUseCaseImpl) SendMessage` from
`message_usecase_impl.go`, lines 100–157, as a function of the external
outcomes `e`: returns the final in-memory state of the message and the
error returned to the caller (`none` = `nil`).

* transport error: `MarkAsFailed(err.Error())`, update attempted with the
  result only logged, return the transport error;
* acknowledgement with `Status != "sent"`: `MarkAsFailed` with the
  error text of the response (or `"Unknown error from API"` when empty), update
  attempted with the result only logged, return `API returned error: ...`;
* acknowledgement `"sent"`: `MarkAsSent(response.MessageID)`, then persist;
  if the update fails its error is returned; otherwise the cache write is
  attempted and its failure only logged, and `nil` is returned. -/
def SendMessage (e : SendEnv) (now : Nat) (m : Message) : Message × Option String :=
  match e.api with
  | Except.error err =>
      (m.MarkAsFailed err now, some err)
  | Except.ok response =>
      if response.Status ≠ "sent" then
        let errorMsg := if response.Error = "" then "Unknown error from API" else response.Error
        (m.MarkAsFailed errorMsg now, some ("API returned error: " ++ errorMsg))
      else
        let m1 := m.MarkAsSent response.MessageID now
        match e.updateErr with
        | some updateErr => (m1, some updateErr)
        | none => (m1, none)

/-- The ordering used by the `GetPendingMessages` SQL query
(`ORDER BY created_at ASC`). -/
def createdLE (a b : Message) : Prop :=
  a.CreatedAt ≤ b.CreatedAt

instance : DecidableRel createdLE := fun a b =>
  inferInstanceAs (Decidable (a.CreatedAt ≤ b.CreatedAt))

instance : IsTotal Message createdLE :=
  ⟨fun a b => Nat.le_total a.CreatedAt b.CreatedAt⟩

instance : IsTrans Message createdLE :=
  ⟨fun _ _ _ hab hbc => Nat.le_trans hab hbc⟩

/-- Go `func (r *messageRepositoryImpl) GetPendingMessages` from
`message_repository_impl.go`, lines 82–119.  The SQL
`WHERE status = pending ORDER BY created_at ASC LIMIT $1` over the
message table (modelled as a list of rows) is the pending rows, sorted by
creation time ascending, truncated to `limit`. -/
def GetPendingMessages (store : List Message) (limit : Nat) : List Message :=
  ((store.filter Message.IsPending).insertionSort createdLE).take limit

/-- The `for _, message := range messages` loop of
`ProcessPendingMessages` (lines 172–181): attempts every message in
order, feeding the `i`-th attempt the external outcome `env i`; returns
the number of attempts whose `SendMessage` returned `nil` together with
the final states of all attempted messages.  An attempt that returns an
error is logged and skipped (`continue`); the loop never aborts. -/
def sendLoop (env : Nat → SendEnv) (now : Nat) : List Message → Nat → Nat × List Message
  | [], _ => (0, [])
  | m :: rest, i =>
      let r := SendMessage (env i) now m
      let rec_ := sendLoop env now rest (i + 1)
      ((if r.2 = none then 1 else 0) + rec_.1, r.1 :: rec_.2)

/-- Result of one `ProcessPendingMessages` call: the returned success
count, the returned error, and the final states of the messages that were
attempted, in attempt order. -/
structure ProcResult where
  count : Nat
  err : Option String
  attempted : List Message
deriving DecidableEq, Repr

/-- Go `func (uc *messageUseCaseImpl) ProcessPendingMessages` from
`message_usecase_impl.go`, lines 159–189.  `fetchErr` is the outcome of
the `GetPendingMessages` fetch (`some e` = the repository query failed):
on fetch failure return `(0, err)`; on an empty fetch return `(0, nil)`;
otherwise run the send loop and return the success count with a `nil`
error. -/
def ProcessPendingMessages (fetchErr : Option String) (env : Nat → SendEnv)
    (now : Nat) (store : List Message) (batchSize : Nat) : ProcResult :=
  match fetchErr with
  | some e => ⟨0, some e, []⟩
  | none =>
      let messages := GetPendingMessages store batchSize
      if messages.length = 0 then ⟨0, none, []⟩
      else
        let r := sendLoop env now messages 0
        ⟨r.1, none, r.2⟩

/-- Whether the delivery client acknowledged this attempt as `"sent"`
(the branch of `SendMessage` that calls `MarkAsSent`). -/
def ackedSent (e : SendEnv) : Bool :=
  match e.api with
  | Except.error _ => false
  | Except.ok response => response.Status = "sent"

/-- Number of attempts among the first `n` (starting at call index `i`)
whose delivery was acknowledged `"sent"`. -/
def countAckedSent (env : Nat → SendEnv) (i n : Nat) : Nat :=
  match n with
  | 0 => 0
  | n + 1 => (if ackedSent (env i) then 1 else 0) + countAckedSent env (i + 1) n

/-- Number of attempts among the first `n` (starting at call index `i`)
whose delivery was acknowledged `"sent"` and whose status update also
persisted — the attempts for which `SendMessage` returns `nil`. -/
def countPersistedSent (env : Nat → SendEnv) (i n : Nat) : Nat :=
  match n with
  | 0 => 0
  | n + 1 =>
      (if ackedSent (env i) ∧ (env i).updateErr = none then 1 else 0) +
        countPersistedSent env (i + 1) n

/-- Scheduler configuration (`SchedulerConfig` in
`infrastructure/config`): tick interval and messages per batch.  The
interval is modelled in the same `Nat` time units as timestamps. -/
structure SchedConfig where
  interval : Nat
  batchSize : Nat
deriving DecidableEq, Repr

/-- The mutable fields of `schedulerUseCaseImpl`
(`scheduler_usecase_impl.go`): the running flag, the nullable last/next
run timestamps, and the cumulative sent counter. -/
structure SchedulerState where
  isRunning : Bool
  lastRun : Option Nat
  nextRun : Option Nat
  sentCount : Nat
deriving DecidableEq, Repr

/-- The state built by `NewSchedulerUseCase`: not running, no recorded
runs, zero sent count. -/
def initialSchedulerState : SchedulerState :=
  { isRunning := false, lastRun := none, nextRun := none, sentCount := 0 }

/-- Errors returned by the scheduler control operations:
`ErrSchedulerAlreadyRunning`, `ErrSchedulerNotRunning`, and a cron
registration error from `cron.AddFunc`. -/
inductive SchedulerError where
  | alreadyRunning
  | notRunning
  | cronError (msg : String)
deriving DecidableEq, Repr

/-- Type `SchedulerStatus` from the entities package: `"stopped"` or
`"running"`. -/
inductive RunStatus where
  | stopped
  | running
deriving DecidableEq, Repr

/-- The `SchedulerInfo` snapshot returned by `GetSchedulerStatus`. -/
structure SchedulerInfo where
  status : RunStatus
  lastRun : Option Nat
  nextRun : Option Nat
  messagesCount : Nat
  interval : Nat
  batchSize : Nat
deriving DecidableEq, Repr

/-- Go `func (uc *schedulerUseCaseImpl) StartScheduler` from
`scheduler_usecase_impl.go`, lines 49–85: if already running return
`ErrSchedulerAlreadyRunning`; if `cron.AddFunc` fails (`cronErr`), return
that error with the state unchanged; otherwise set the running flag, set
`nextRun` to now, attempt the best-effort cache write (`cacheErr`, only
logged), and return `nil`. -/
def StartScheduler (cronErr : Option String) (cacheErr : Option String)
    (now : Nat) (s : SchedulerState) : SchedulerState × Option SchedulerError :=
  if s.isRunning then
    (s, some SchedulerError.alreadyRunning)
  else
    match cronErr with
    | some e => (s, some (SchedulerError.cronError e))
    | none => ({ s with isRunning := true, nextRun := some now }, none)

/-- Go `func (uc *schedulerUseCaseImpl) StopScheduler` from
`scheduler_usecase_impl.go`, lines 87–108: if not running return
`ErrSchedulerNotRunning`; otherwise clear the running flag and `nextRun`,
attempt the best-effort cache write (`cacheErr`, only logged), and return
`nil`.  `lastRun` and `sentCount` are untouched. -/
def StopScheduler (cacheErr : Option String) (s : SchedulerState) :
    SchedulerState × Option SchedulerError :=
  if s.isRunning then
    ({ s with isRunning := false, nextRun := none }, none)
  else
    (s, some SchedulerError.notRunning)

/-- Go `func (uc *schedulerUseCaseImpl) GetSchedulerStatus` from
`scheduler_usecase_impl.go`, lines 110–129: a snapshot of the scheduler
state plus the configured interval and batch size. -/
def GetSchedulerStatus (cfg : SchedConfig) (s : SchedulerState) : SchedulerInfo :=
  { status := if s.isRunning then RunStatus.running else RunStatus.stopped
    lastRun := s.lastRun
    nextRun := s.nextRun
    messagesCount := s.sentCount
    interval := cfg.interval
    batchSize := cfg.batchSize }

/-- Go `func (uc *schedulerUseCaseImpl) IsRunning` from
`scheduler_usecase_impl.go`. -/
def IsRunning (s : SchedulerState) : Bool :=
  s.isRunning

/-- Go `func (uc *schedulerUseCaseImpl) processMessages` — the tick handler,
`scheduler_usecase_impl.go`, lines 138–164: record `lastRun := now` and
`nextRun := now + interval`, call `ProcessPendingMessages`, and on a `nil`
error add the returned count to `sentCount`; on an error only log,
leaving the counter unchanged.  `procCount`/`procErr` stand for the
result of the batch-processor call. -/
def processMessages (cfg : SchedConfig) (now : Nat) (procCount : Nat)
    (procErr : Option String) (s : SchedulerState) : SchedulerState :=
  let s1 := { s with lastRun := some now, nextRun := some (now + cfg.interval) }
  match procErr with
  | some _ => s1
  | none => { s1 with sentCount := s1.sentCount + procCount }

/-- One sequential step of the scheduler: a `StartScheduler` call, a
`StopScheduler` call (each with arbitrary external outcomes, including the
failing no-op cases), or a cron tick.  A tick step requires the running
flag: the cron entry that invokes `processMessages` exists exactly while
the scheduler is running (`AddFunc` on start, `Remove`/`Stop` on stop). -/
inductive SchedStep (cfg : SchedConfig) : SchedulerState → SchedulerState → Prop where
  | start (cronErr cacheErr : Option String) (now : Nat) (s : SchedulerState) :
      SchedStep cfg s (StartScheduler cronErr cacheErr now s).1
  | stop (cacheErr : Option String) (s : SchedulerState) :
      SchedStep cfg s (StopScheduler cacheErr s).1
  | tick (now procCount : Nat) (procErr : Option String) (s : SchedulerState) :
      s.isRunning = true →
      SchedStep cfg s (processMessages cfg now procCount procErr s)

/-- States reachable from the freshly constructed scheduler by any
interleaving of start, stop, and tick steps. -/
def SchedReachable (cfg : SchedConfig) (s : SchedulerState) : Prop :=
  Relation.ReflTransGen (SchedStep cfg) initialSchedulerState s

end MessageService

namespace MessageService

/-- C4: `Validate` fails with the empty-content error on empty content;
with the too-long error when the content exceeds 160 units (and is not
empty, which a >160-unit content never is); with the empty-phone-number
error when the phone number is empty and the content checks pass;
succeeds exactly when content is non-empty, at most 160 units, and the
phone number is non-empty; content of exactly 160 units is valid
(inclusive boundary). -/
theorem validate_cases (m : Message) :
    (m.Validate = none ↔
      m.Content ≠ "" ∧ m.Content.length ≤ 160 ∧ m.PhoneNumber ≠ "") ∧
    (m.Content = "" →
      m.Validate = some ValidationError.ErrInvalidMessageContent) ∧
    (m.Content.length > 160 →
      m.Validate = some ValidationError.ErrMessageTooLong) ∧
    (m.PhoneNumber = "" → m.Content ≠ "" → m.Content.length ≤ 160 →
      m.Validate = some ValidationError.ErrInvalidPhoneNumber) ∧
    (m.Content.length = 160 → m.PhoneNumber ≠ "" → m.Validate = none) := by
  unfold Message.Validate
  refine ⟨?_, ?_, ?_, ?_, ?_⟩
  · constructor
    · intro h
      by_cases hc : m.Content = "" <;> by_cases hl : m.Content.length > 160 <;>
        by_cases hp : m.PhoneNumber = "" <;> simp [hc, hl, hp] at h ⊢ <;> omega
    · rintro ⟨hc, hl, hp⟩
      simp [hc, hp, Nat.not_lt.mpr hl]
  · intro hc; simp [hc]
  · intro hl
    have hc : m.Content ≠ "" := by
      intro hc
      rw [hc] at hl
      simp at hl
    simp [hc, hl]
  · intro hp hc hl
    simp [hc, hp, Nat.not_lt.mpr hl]
  · intro hl hp
    have hc : m.Content ≠ "" := by
      intro hc
      rw [hc] at hl
      simp at hl
    simp [hc, hp, hl]

/-- Witness for `validate_cases` at a concrete valid message. -/
theorem validate_cases_witness :
    ({ ID := 1, Content := "hello", PhoneNumber := "+15550001111",
       Status := MessageStatus.pending, CreatedAt := 0, UpdatedAt := 0,
       SentAt := none, ExternalMessageID := none,
       ErrorMessage := none : Message }).Validate = none := by
  have h := validate_cases
    { ID := 1, Content := "hello", PhoneNumber := "+15550001111",
      Status := MessageStatus.pending, CreatedAt := 0, UpdatedAt := 0,
      SentAt := none, ExternalMessageID := none, ErrorMessage := none }
  exact h.1.mpr (by decide)

/-- C10: `Validate` checks in a fixed order — empty content, then content
length, then empty phone number — so the error of the earliest violated
rule wins; in particular a message with empty content and an empty phone
number fails with the empty-content error, not the empty-phone-number
error. -/
theorem validate_precedence (m : Message) :
    (m.Content = "" →
      m.Validate = some ValidationError.ErrInvalidMessageContent) ∧
    (m.Content ≠ "" → m.Content.length > 160 →
      m.Validate = some ValidationError.ErrMessageTooLong) ∧
    (m.Content ≠ "" → m.Content.length ≤ 160 → m.PhoneNumber = "" →
      m.Validate = some ValidationError.ErrInvalidPhoneNumber) ∧
    (m.Content = "" → m.PhoneNumber = "" →
      m.Validate ≠ some ValidationError.ErrInvalidPhoneNumber) := by
  unfold Message.Validate
  refine ⟨?_, ?_, ?_, ?_⟩
  · intro hc; simp [hc]
  · intro hc hl; simp [hc, hl]
  · intro hc hl hp; simp [hc, hp, Nat.not_lt.mpr hl]
  · intro hc hp; simp [hc]

/-- Witness for `validate_precedence`: a message with empty content and
empty phone number fails with the empty-content error. -/
theorem validate_precedence_witness :
    ({ ID := 2, Content := "", PhoneNumber := "",
       Status := MessageStatus.pending, CreatedAt := 0, UpdatedAt := 0,
       SentAt := none, ExternalMessageID := none,
       ErrorMessage := none : Message }).Validate =
      some ValidationError.ErrInvalidMessageContent :=
  (validate_precedence
    { ID := 2, Content := "", PhoneNumber := "",
      Status := MessageStatus.pending, CreatedAt := 0, UpdatedAt := 0,
      SentAt := none, ExternalMessageID := none,
      ErrorMessage := none }).1 rfl

/-- Every scheduler step preserves the `nextRun`-iff-running invariant. -/
theorem schedStep_preserves_invariant (cfg : SchedConfig) (s t : SchedulerState)
    (step : SchedStep cfg s t) (ih : s.nextRun ≠ none ↔ s.isRunning = true) :
    t.nextRun ≠ none ↔ t.isRunning = true := by
  cases step with
  | start cronErr cacheErr now =>
    by_cases hr : s.isRunning
    · simpa [StartScheduler, hr] using ih
    · cases cronErr with
      | none => simp [StartScheduler, hr]
      | some e => simpa [StartScheduler, hr] using ih
  | stop cacheErr =>
    by_cases hr : s.isRunning
    · simp [StopScheduler, hr]
    · simpa [StopScheduler, hr] using ih
  | tick now procCount procErr =>
    rename_i hrun
    cases procErr with
    | none => simp [processMessages, hrun]
    | some e => simp [processMessages, hrun]

/-- C5: in every scheduler state reachable from the initial stopped state
by any interleaving of start, stop, and tick steps, `nextRun` is non-null
exactly when the running flag is true. -/
theorem nextRun_iff_running (cfg : SchedConfig) (s : SchedulerState)
    (h : SchedReachable cfg s) : s.nextRun ≠ none ↔ s.isRunning = true := by
  induction h with
  | refl => simp [initialSchedulerState]
  | tail _ step ih => exact schedStep_preserves_invariant cfg _ _ step ih

/-- Witness for `nextRun_iff_running` at the state reached by one
successful start. -/
theorem nextRun_iff_running_witness :
    ((StartScheduler none none 5 initialSchedulerState).1.nextRun ≠ none ↔
      (StartScheduler none none 5 initialSchedulerState).1.isRunning = true) :=
  nextRun_iff_running ⟨120, 2⟩ _
    (Relation.ReflTransGen.single
      (SchedStep.start none none 5 initialSchedulerState))

/-- C6: `StartScheduler` on a running scheduler fails with
`alreadyRunning` and changes nothing — `GetSchedulerStatus` still reports
running; `StopScheduler` on a stopped scheduler fails with `notRunning`
and changes nothing.  Both are returned errors (the operations are total
functions). -/
theorem invalid_transitions (cfg : SchedConfig)
    (cronErr cacheErr cacheErr2 : Option String) (now : Nat)
    (s t : SchedulerState) (hs : s.isRunning = true) (ht : t.isRunning = false) :
    StartScheduler cronErr cacheErr now s = (s, some SchedulerError.alreadyRunning) ∧
    (GetSchedulerStatus cfg (StartScheduler cronErr cacheErr now s).1).status =
      RunStatus.running ∧
    StopScheduler cacheErr2 t = (t, some SchedulerError.notRunning) := by
  refine ⟨?_, ?_, ?_⟩
  · simp [StartScheduler, hs]
  · simp [StartScheduler, GetSchedulerStatus, hs]
  · simp [StopScheduler, ht]

/-- Witness for `invalid_transitions`: start on a running state, stop on
the initial stopped state. -/
theorem invalid_transitions_witness :
    StartScheduler none none 9
        { isRunning := true, lastRun := some 1, nextRun := some 3, sentCount := 4 } =
      ({ isRunning := true, lastRun := some 1, nextRun := some 3, sentCount := 4 },
        some SchedulerError.alreadyRunning) ∧
    (GetSchedulerStatus ⟨120, 2⟩
        (StartScheduler none none 9
          { isRunning := true, lastRun := some 1, nextRun := some 3, sentCount := 4 }).1).status =
      RunStatus.running ∧
    StopScheduler none initialSchedulerState =
      (initialSchedulerState, some SchedulerError.notRunning) :=
  invalid_transitions ⟨120, 2⟩ none none none 9
    { isRunning := true, lastRun := some 1, nextRun := some 3, sentCount := 4 }
    initialSchedulerState rfl rfl

/-- C7: a successful stop on a running scheduler returns no error, and
the status observed afterwards is stopped with a null `nextRun`, while
the last-run timestamp and the cumulative sent count are exactly their
values observed before the stop. -/
theorem stop_frame (cfg : SchedConfig) (cacheErr : Option String)
    (s : SchedulerState) (hs : s.isRunning = true) :
    (StopScheduler cacheErr s).2 = none ∧
    GetSchedulerStatus cfg (StopScheduler cacheErr s).1 =
      { status := RunStatus.stopped
        lastRun := (GetSchedulerStatus cfg s).lastRun
        nextRun := none
        messagesCount := (GetSchedulerStatus cfg s).messagesCount
        interval := cfg.interval
        batchSize := cfg.batchSize } := by
  constructor
  · simp [StopScheduler, hs]
  · simp [StopScheduler, GetSchedulerStatus, hs]

/-- Witness for `stop_frame` at a concrete running state. -/
theorem stop_frame_witness :
    (StopScheduler (some "cache down")
        { isRunning := true, lastRun := some 11, nextRun := some 13, sentCount := 7 }).2 =
      none ∧
    GetSchedulerStatus ⟨120, 2⟩
        (StopScheduler (some "cache down")
          { isRunning := true, lastRun := some 11, nextRun := some 13, sentCount := 7 }).1 =
      { status := RunStatus.stopped
        lastRun := (GetSchedulerStatus ⟨120, 2⟩
          { isRunning := true, lastRun := some 11, nextRun := some 13, sentCount := 7 }).lastRun
        nextRun := none
        messagesCount := (GetSchedulerStatus ⟨120, 2⟩
          { isRunning := true, lastRun := some 11, nextRun := some 13, sentCount := 7 }).messagesCount
        interval := 120
        batchSize := 2 } :=
  stop_frame ⟨120, 2⟩ (some "cache down")
    { isRunning := true, lastRun := some 11, nextRun := some 13, sentCount := 7 } rfl

/-- C8: the cumulative sent count never decreases under any scheduler
step; neither a start nor a stop ever changes it; a tick whose batch call
returned no error adds the count returned by the batch, and a tick whose batch
call returned an error leaves the counter unchanged. -/
theorem sentCount_monotone (cfg : SchedConfig) :
    (∀ s t : SchedulerState, SchedStep cfg s t → s.sentCount ≤ t.sentCount) ∧
    (∀ (cronErr cacheErr : Option String) (now : Nat) (s : SchedulerState),
      (StartScheduler cronErr cacheErr now s).1.sentCount = s.sentCount) ∧
    (∀ (cacheErr : Option String) (s : SchedulerState),
      (StopScheduler cacheErr s).1.sentCount = s.sentCount) ∧
    (∀ (now procCount : Nat) (s : SchedulerState),
      (processMessages cfg now procCount none s).sentCount = s.sentCount + procCount) ∧
    (∀ (now procCount : Nat) (e : String) (s : SchedulerState),
      (processMessages cfg now procCount (some e) s).sentCount = s.sentCount) := by
  refine ⟨?_, ?_, ?_, ?_, ?_⟩
  · intro s t step
    cases step with
    | start cronErr cacheErr now =>
      by_cases hr : s.isRunning
      · simp [StartScheduler, hr]
      · cases cronErr <;> simp [StartScheduler, hr]
    | stop cacheErr =>
      by_cases hr : s.isRunning <;> simp [StopScheduler, hr]
    | tick now procCount procErr =>
      cases procErr <;> simp [processMessages]
  · intro cronErr cacheErr now s
    by_cases hr : s.isRunning
    · simp [StartScheduler, hr]
    · cases cronErr <;> simp [StartScheduler, hr]
  · intro cacheErr s
    by_cases hr : s.isRunning <;> simp [StopScheduler, hr]
  · intro now procCount s
    simp [processMessages]
  · intro now procCount e s
    simp [processMessages]

/-- Witness for `sentCount_monotone`: a tick step from a concrete running
state does not decrease the counter, and the tick equations at concrete
values. -/
theorem sentCount_monotone_witness :
    ({ isRunning := true, lastRun := none, nextRun := some 3, sentCount := 4
        : SchedulerState }).sentCount ≤
      (processMessages ⟨120, 2⟩ 8 5 none
        { isRunning := true, lastRun := none, nextRun := some 3, sentCount := 4 }).sentCount ∧
    (processMessages ⟨120, 2⟩ 8 5 none
        { isRunning := true, lastRun := none, nextRun := some 3, sentCount := 4 }).sentCount =
      4 + 5 ∧
    (processMessages ⟨120, 2⟩ 8 5 (some "fetch failed")
        { isRunning := true, lastRun := none, nextRun := some 3, sentCount := 4 }).sentCount =
      4 :=
  ⟨(sentCount_monotone ⟨120, 2⟩).1
      { isRunning := true, lastRun := none, nextRun := some 3, sentCount := 4 }
      (processMessages ⟨120, 2⟩ 8 5 none
        { isRunning := true, lastRun := none, nextRun := some 3, sentCount := 4 })
      (SchedStep.tick 8 5 none
        { isRunning := true, lastRun := none, nextRun := some 3, sentCount := 4 } rfl),
    (sentCount_monotone ⟨120, 2⟩).2.2.2.1 8 5
      { isRunning := true, lastRun := none, nextRun := some 3, sentCount := 4 },
    (sentCount_monotone ⟨120, 2⟩).2.2.2.2 8 5 "fetch failed"
      { isRunning := true, lastRun := none, nextRun := some 3, sentCount := 4 }⟩

/-- SendMessage returns `nil` exactly when the delivery was acknowledged
`"sent"` and the status update persisted. -/
theorem sendMessage_ret_nil_iff (e : SendEnv) (now : Nat) (m : Message) :
    (SendMessage e now m).2 = none ↔
      (ackedSent e = true ∧ e.updateErr = none) := by
  cases he : e.api with
  | error err => simp [SendMessage, ackedSent, he]
  | ok response =>
    by_cases hs : response.Status = "sent"
    · cases hu : e.updateErr with
      | none => simp [SendMessage, ackedSent, he, hs, hu]
      | some u => simp [SendMessage, ackedSent, he, hs, hu]
    · simp [SendMessage, ackedSent, he, hs]

/-- SendMessage marks the message failed whenever the delivery was not
acknowledged `"sent"` (transport error or explicit rejection). -/
theorem sendMessage_failed_status (e : SendEnv) (now : Nat) (m : Message)
    (h : ackedSent e = false) :
    (SendMessage e now m).1.Status = MessageStatus.failed := by
  cases he : e.api with
  | error err => simp [SendMessage, he, Message.MarkAsFailed]
  | ok response =>
    have hs : ¬response.Status = "sent" := by
      simpa [ackedSent, he] using h
    simp [SendMessage, he, hs, Message.MarkAsFailed]

/-- The send loop attempts every message: the result list has one entry
per fetched message. -/
theorem sendLoop_length (env : Nat → SendEnv) (now : Nat) :
    ∀ (l : List Message) (i : Nat), (sendLoop env now l i).2.length = l.length
  | [], _ => rfl
  | m :: rest, i => by
    simp [sendLoop, sendLoop_length env now rest (i + 1)]

/-- Entry `j` of the send-loop result is the outcome of sending entry `j`
of the fetched list with the external outcome at call index `i + j`. -/
theorem sendLoop_getElem (env : Nat → SendEnv) (now : Nat) :
    ∀ (l : List Message) (i j : Nat),
      (sendLoop env now l i).2[j]? =
        l[j]?.map (fun m => (SendMessage (env (i + j)) now m).1)
  | [], _, _ => by simp [sendLoop]
  | m :: rest, i, 0 => by simp [sendLoop]
  | m :: rest, i, j + 1 => by
    have ih := sendLoop_getElem env now rest (i + 1) j
    have harith : i + 1 + j = i + (j + 1) := by omega
    simp only [sendLoop, List.getElem?_cons_succ]
    rw [ih, harith]

/-- The send-loop success count is the number of attempts acknowledged
`"sent"` whose status update also persisted. -/
theorem sendLoop_count (env : Nat → SendEnv) (now : Nat) :
    ∀ (l : List Message) (i : Nat),
      (sendLoop env now l i).1 = countPersistedSent env i l.length
  | [], _ => rfl
  | m :: rest, i => by
    have ih := sendLoop_count env now rest (i + 1)
    have hiff := sendMessage_ret_nil_iff (env i) now m
    simp only [sendLoop, countPersistedSent, List.length_cons]
    rw [ih]
    congr 1
    by_cases h : ackedSent (env i) = true ∧ (env i).updateErr = none
    · simp [hiff.mpr h, h]
    · have hne : ¬(SendMessage (env i) now m).2 = none := fun hn => h (hiff.mp hn)
      simp [hne, h]

/-- On a successful fetch, `ProcessPendingMessages` is the send loop over
the fetched batch with a `nil` error. -/
theorem processPending_none_eq (env : Nat → SendEnv) (now : Nat)
    (store : List Message) (batchSize : Nat) :
    ProcessPendingMessages none env now store batchSize =
      ⟨(sendLoop env now (GetPendingMessages store batchSize) 0).1, none,
        (sendLoop env now (GetPendingMessages store batchSize) 0).2⟩ := by
  unfold ProcessPendingMessages
  by_cases h : (GetPendingMessages store batchSize).length = 0
  · have hnil : GetPendingMessages store batchSize = [] := List.length_eq_zero.mp h
    simp [h, hnil, sendLoop]
  · simp [h]

/-- C2: the returned error of `ProcessPendingMessages` is exactly the
fetch outcome (so a non-nil error occurs only when the fetch itself
fails); zero eligible pending messages give `(0, nil)`; every fetched
message is attempted even when earlier ones fail; and an attempt whose
delivery was not acknowledged `"sent"` leaves that message in failed
status. -/
theorem processPending_error_contract (fetchErr : Option String)
    (env : Nat → SendEnv) (now : Nat) (store : List Message) (batchSize : Nat) :
    ((ProcessPendingMessages fetchErr env now store batchSize).err = fetchErr) ∧
    (store.filter Message.IsPending = [] →
      ProcessPendingMessages none env now store batchSize = ⟨0, none, []⟩) ∧
    ((ProcessPendingMessages none env now store batchSize).attempted.length =
      (GetPendingMessages store batchSize).length) ∧
    (∀ (j : Nat) (m : Message),
      (ProcessPendingMessages none env now store batchSize).attempted[j]? = some m →
      ackedSent (env j) = false → m.Status = MessageStatus.failed) := by
  refine ⟨?_, ?_, ?_, ?_⟩
  · cases fetchErr with
    | some e => rfl
    | none =>
      unfold ProcessPendingMessages
      by_cases h : (GetPendingMessages store batchSize).length = 0 <;> simp [h]
  · intro hnil
    have hget : GetPendingMessages store batchSize = [] := by
      simp [GetPendingMessages, hnil]
    simp [ProcessPendingMessages, hget]
  · rw [processPending_none_eq]
    exact sendLoop_length env now _ 0
  · intro j m hm hfail
    rw [processPending_none_eq] at hm
    rw [sendLoop_getElem] at hm
    cases hmsg : (GetPendingMessages store batchSize)[j]? with
    | none => rw [hmsg] at hm; simp at hm
    | some x =>
      rw [hmsg] at hm
      have hx : (SendMessage (env (0 + j)) now x).1 = m := by
        simpa using hm
      rw [← hx]
      exact sendMessage_failed_status (env (0 + j)) now x (by rwa [Nat.zero_add])

/-- Witness for `processPending_error_contract`: an empty store yields
`(0, nil)` with no attempts. -/
theorem processPending_error_contract_witness :
    ProcessPendingMessages none
        (fun _ => ⟨Except.ok ⟨"x", "sent", ""⟩, none, none⟩) 5 [] 3 =
      ⟨0, none, []⟩ :=
  (processPending_error_contract none
    (fun _ => ⟨Except.ok ⟨"x", "sent", ""⟩, none, none⟩) 5 [] 3).2.1 rfl

/-- C1 counterexample: one pending message, the delivery client
acknowledges `"sent"`, but persisting the update fails; the call returns
success count 0 even though exactly one delivery was acknowledged
`"sent"` — the count does not include the delivered-but-unpersisted
message, contradicting the claim that it does. -/
theorem sent_ack_persist_fail_counterexample :
    (ProcessPendingMessages none
        (fun _ => ⟨Except.ok ⟨"ext-1", "sent", ""⟩, some "db down", none⟩) 10
        [⟨1, "hi", "+15550001111", MessageStatus.pending, 0, 0, none, none, none⟩]
        5).count = 0 ∧
    (ProcessPendingMessages none
        (fun _ => ⟨Except.ok ⟨"ext-1", "sent", ""⟩, some "db down", none⟩) 10
        [⟨1, "hi", "+15550001111", MessageStatus.pending, 0, 0, none, none, none⟩]
        5).attempted.length = 1 ∧
    countAckedSent
        (fun _ => ⟨Except.ok ⟨"ext-1", "sent", ""⟩, some "db down", none⟩) 0 1 = 1 := by
  refine ⟨?_, ?_, ?_⟩ <;> rfl

/-- C1 amended: when the delivery client acknowledges `"sent"` but
persisting the update fails, the loop still continues to the next message
(every fetched message is attempted), but that message is not counted:
the returned success count equals the number of attempts whose delivery
was acknowledged `"sent"` and whose update also persisted. -/
theorem processPending_count_persisted (env : Nat → SendEnv) (now : Nat)
    (store : List Message) (batchSize : Nat) :
    (ProcessPendingMessages none env now store batchSize).count =
      countPersistedSent env 0 (GetPendingMessages store batchSize).length ∧
    (ProcessPendingMessages none env now store batchSize).attempted.length =
      (GetPendingMessages store batchSize).length := by
  rw [processPending_none_eq]
  exact ⟨sendLoop_count env now _ 0, sendLoop_length env now _ 0⟩

/-- C3: a successful `ProcessPendingMessages` call with positive batch
size `N` fetches and attempts only pending messages, in creation-time
ascending order; the number of attempts is `min M N` for `M` pending
messages (so all `M` when `M < N`, exactly `N` when `M > N`); and the
fetched messages are the `N` oldest: each has creation time at most that
of every pending message left behind, the leftovers being the rest of a
permutation of all pending messages. -/
theorem processPending_batch_selection (store : List Message) (N : Nat)
    (hN : 0 < N) (env : Nat → SendEnv) (now : Nat) :
    (∀ m ∈ GetPendingMessages store N, m.IsPending = true) ∧
    List.Sorted createdLE (GetPendingMessages store N) ∧
    (GetPendingMessages store N).length =
      min (store.filter Message.IsPending).length N ∧
    (ProcessPendingMessages none env now store N).attempted.length =
      (GetPendingMessages store N).length ∧
    (∀ x ∈ GetPendingMessages store N,
      ∀ y ∈ ((store.filter Message.IsPending).insertionSort createdLE).drop N,
        x.CreatedAt ≤ y.CreatedAt) ∧
    List.Perm
      (GetPendingMessages store N ++
        ((store.filter Message.IsPending).insertionSort createdLE).drop N)
      (store.filter Message.IsPending) := by
  have hsorted : List.Sorted createdLE
      ((store.filter Message.IsPending).insertionSort createdLE) :=
    List.sorted_insertionSort createdLE _
  have hsplit : ((store.filter Message.IsPending).insertionSort createdLE).take N ++
      ((store.filter Message.IsPending).insertionSort createdLE).drop N =
      (store.filter Message.IsPending).insertionSort createdLE :=
    List.take_append_drop N _
  refine ⟨?_, ?_, ?_, ?_, ?_, ?_⟩
  · intro m hm
    have hmem : m ∈ (store.filter Message.IsPending).insertionSort createdLE :=
      List.mem_of_mem_take hm
    rw [List.mem_insertionSort] at hmem
    exact (List.mem_filter.mp hmem).2
  · exact List.Pairwise.sublist (List.take_sublist N _) hsorted
  · rw [GetPendingMessages, List.length_take,
      (List.perm_insertionSort createdLE _).length_eq, Nat.min_comm]
  · rw [processPending_none_eq]
    exact sendLoop_length env now _ 0
  · intro x hx y hy
    have hpair := hsorted
    rw [← hsplit] at hpair
    exact (List.pairwise_append.mp hpair).2.2 x hx y hy
  · rw [GetPendingMessages, hsplit]
    exact List.perm_insertionSort createdLE _

/-- Witness for `processPending_batch_selection`: a store with two
pending messages and one sent message, batch size 1, fetches
`min 2 1 = 1` message. -/
theorem processPending_batch_selection_witness :
    (GetPendingMessages
        [⟨1, "a", "+1", MessageStatus.pending, 5, 5, none, none, none⟩,
         ⟨2, "b", "+2", MessageStatus.pending, 3, 3, none, none, none⟩,
         ⟨3, "c", "+3", MessageStatus.sent, 1, 1, some 2, some "x", none⟩] 1).length =
      min (([⟨1, "a", "+1", MessageStatus.pending, 5, 5, none, none, none⟩,
             ⟨2, "b", "+2", MessageStatus.pending, 3, 3, none, none, none⟩,
             ⟨3, "c", "+3", MessageStatus.sent, 1, 1, some 2, some "x",
               none⟩] : List Message).filter Message.IsPending).length 1 :=
  (processPending_batch_selection
    [⟨1, "a", "+1", MessageStatus.pending, 5, 5, none, none, none⟩,
     ⟨2, "b", "+2", MessageStatus.pending, 3, 3, none, none, none⟩,
     ⟨3, "c", "+3", MessageStatus.sent, 1, 1, some 2, some "x", none⟩] 1
    (by decide) (fun _ => ⟨Except.ok ⟨"x", "sent", ""⟩, none, none⟩) 0).2.2.1

/-- SendMessage results depend only on the API and update outcomes, never
on the cache outcome. -/
theorem sendMessage_ext (e1 e2 : SendEnv) (ha : e1.api = e2.api)
    (hu : e1.updateErr = e2.updateErr) (now : Nat) (m : Message) :
    SendMessage e1 now m = SendMessage e2 now m := by
  cases e1
  cases e2
  cases ha
  cases hu
  rfl

/-- The send loop is unchanged under any change of the per-attempt cache
outcomes. -/
theorem sendLoop_congr (env1 env2 : Nat → SendEnv) (now : Nat)
    (h : ∀ i, (env1 i).api = (env2 i).api ∧ (env1 i).updateErr = (env2 i).updateErr) :
    ∀ (l : List Message) (i : Nat), sendLoop env1 now l i = sendLoop env2 now l i
  | [], _ => rfl
  | m :: rest, i => by
    have ih := sendLoop_congr env1 env2 now h rest (i + 1)
    have hm := sendMessage_ext (env1 i) (env2 i) (h i).1 (h i).2 now m
    simp [sendLoop, ih, hm]

/-- C9: a status-cache write failure never changes any outcome.  Stop and
start results are identical under every cache outcome, and a stop on a
running scheduler returns no error even when the cache write fails (so
does a successful start); `SendMessage` is unchanged under the cache
outcome, and after an acknowledged send whose update persisted a failing
cache write still yields a `nil` error; `ProcessPendingMessages` is
unchanged under any change of the per-attempt cache outcomes. -/
theorem cache_failure_never_escalates :
    (∀ (c1 c2 : Option String) (s : SchedulerState),
      StopScheduler c1 s = StopScheduler c2 s) ∧
    (∀ (c : Option String) (s : SchedulerState), s.isRunning = true →
      (StopScheduler c s).2 = none) ∧
    (∀ (cronErr c1 c2 : Option String) (now : Nat) (s : SchedulerState),
      StartScheduler cronErr c1 now s = StartScheduler cronErr c2 now s) ∧
    (∀ (c : Option String) (s : SchedulerState), s.isRunning = false →
      (StartScheduler none c 7 s).2 = none) ∧
    (∀ (a : Except String SendMessageResponse) (u c1 c2 : Option String)
      (now : Nat) (m : Message),
      SendMessage ⟨a, u, c1⟩ now m = SendMessage ⟨a, u, c2⟩ now m) ∧
    (∀ (response : SendMessageResponse) (c : String) (now : Nat) (m : Message),
      response.Status = "sent" →
      (SendMessage ⟨Except.ok response, none, some c⟩ now m).2 = none) ∧
    (∀ (fetchErr : Option String) (env1 env2 : Nat → SendEnv) (now : Nat)
      (store : List Message) (batchSize : Nat),
      (∀ i, (env1 i).api = (env2 i).api ∧ (env1 i).updateErr = (env2 i).updateErr) →
      ProcessPendingMessages fetchErr env1 now store batchSize =
        ProcessPendingMessages fetchErr env2 now store batchSize) := by
  refine ⟨?_, ?_, ?_, ?_, ?_, ?_, ?_⟩
  · intro c1 c2 s; rfl
  · intro c s hs; simp [StopScheduler, hs]
  · intro cronErr c1 c2 now s; rfl
  · intro c s hs; simp [StartScheduler, hs]
  · intro a u c1 c2 now m; exact sendMessage_ext ⟨a, u, c1⟩ ⟨a, u, c2⟩ rfl rfl now m
  · intro response c now m hresp; simp [SendMessage, hresp]
  · intro fetchErr env1 env2 now store batchSize h
    cases fetchErr with
    | some e => rfl
    | none =>
      rw [processPending_none_eq, processPending_none_eq,
        sendLoop_congr env1 env2 now h]

/-- Witness for `cache_failure_never_escalates`: a stop whose cache write
fails still returns no error, on a concrete running state. -/
theorem cache_failure_never_escalates_witness :
    (StopScheduler (some "redis down")
        { isRunning := true, lastRun := some 1, nextRun := some 2, sentCount := 3 }).2 =
      none :=
  cache_failure_never_escalates.2.1 (some "redis down")
    { isRunning := true, lastRun := some 1, nextRun := some 2, sentCount := 3 } rfl

end MessageService
